import Mathlib

/-!
Verification development for a minimal PTY session bridge (`src/main.rs`).

The bridge allocates a PTY pair, spawns a shell attached to the slave end,
runs a background reader on the master descriptor and a foreground writer
loop that turns operator input lines into byte commands written to the
master.  The development below is a shallow embedding of the relevant
functions of `src/main.rs`:

* operator input lines and byte commands are `List Nat` (the UTF-8 bytes of
  the Rust `String` / `Vec<u8>` values, each element a byte value);
* `parse_bytes`, the writer-loop body (`write_loop`), the reader loop
  (`reader_loop`), the environment set-up of `build_cmd`, the `pre_exec`
  hook, `open_pty` and `Args::from_command_line` are translated directly
  from the source;
* OS calls (`read`, `openpty`, `fcntl`, `setsid`, `ioctl`) are parametrised
  by their outcomes: each theorem quantifies over the possible results of
  the calls.
-/

/-- Byte value of the line terminator `\n` (0x0a). -/
def NL : Nat := 10

/-- Byte value of the space character used by `str::split(' ')`. -/
def SPACE : Nat := 32

/-- Byte value of `+`, accepted as a sign by `u8::from_str_radix`. -/
def PLUS : Nat := 43

/-- `begins_with l p` holds when `p` is a leading segment of `l`
(`<[u8]>::starts_with`). -/
def begins_with : List Nat → List Nat → Bool
  | _, [] => true
  | [], _ :: _ => false
  | a :: restA, b :: restB => a == b && begins_with restA restB

/-- `ends_with cmd sfx` models Rust `cmd.ends_with(sfx)` on byte slices. -/
def ends_with (cmd sfx : List Nat) : Bool :=
  begins_with cmd.reverse sfx.reverse

/-- The two writer modes of `src/main.rs` (`WriterMode::String`, selected by
`--mod str`, is the spec's `Raw`; `WriterMode::Bytes`, selected by
`--mod bytes`, is the spec's `HexBytes`). -/
inductive WriterMode
  | String
  | Bytes
deriving DecidableEq

/-- `char::to_digit(16)` on a byte: value of an ASCII hexadecimal digit. -/
def hex_digit_val (b : Nat) : Option Nat :=
  if 48 ≤ b ∧ b ≤ 57 then some (b - 48)
  else if 97 ≤ b ∧ b ≤ 102 then some (b - 87)
  else if 65 ≤ b ∧ b ≤ 70 then some (b - 55)
  else none

/-- The digit-accumulation loop of `u8::from_str_radix(_, 16)`: consume
hexadecimal digits left to right, failing on a non-digit or when
`checked_mul`/`checked_add` would leave the `u8` range. -/
def parse_hex_digits : List Nat → Nat → Option Nat
  | [], acc => some acc
  | b :: rest, acc =>
    match hex_digit_val b with
    | none => none
    | some d => if acc * 16 + d ≤ 255 then parse_hex_digits rest (acc * 16 + d) else none

/-- `u8::from_str_radix(token, 16)` on the token's bytes: an optional leading
`+` sign (a lone `+`, a `-`, or an empty token is an error), then one or more
hexadecimal digits whose value must fit in a byte. -/
def u8_from_str_radix_16 : List Nat → Option Nat
  | [] => none
  | b :: rest =>
    if b = PLUS then
      match rest with
      | [] => none
      | c :: rest2 => parse_hex_digits (c :: rest2) 0
    else parse_hex_digits (b :: rest) 0

/-- `str::split(' ')` at the byte level: split on every single space byte,
keeping empty segments (so the empty input yields one empty token). -/
def split_spaces : List Nat → List (List Nat)
  | [] => [[]]
  | b :: rest =>
    if b = SPACE then [] :: split_spaces rest
    else
      match split_spaces rest with
      | [] => [[b]]
      | t :: ts => (b :: t) :: ts

/-- `buf.strip_suffix('\n')` folded with the identity fallback, as in
`parse_bytes` of `src/main.rs`: drop one trailing line terminator if present. -/
def strip_nl (buf : List Nat) : List Nat :=
  if ends_with buf [NL] then buf.dropLast else buf

/-- `parse_bytes` of `src/main.rs`: strip one trailing terminator, split on
single spaces, keep (in order) every token `u8::from_str_radix(_, 16)`
accepts, silently dropping the rest. -/
def parse_bytes (buf : List Nat) : List Nat :=
  (split_spaces (strip_nl buf)).filterMap u8_from_str_radix_16

/-- The mode match in `write_loop`: `Raw` forwards the line's bytes verbatim
(`buf.into_bytes()`), `HexBytes` goes through `parse_bytes`. -/
def transform (mode : WriterMode) (buf : List Nat) : List Nat :=
  match mode with
  | WriterMode.String => buf
  | WriterMode.Bytes => parse_bytes buf

/-- The terminator normalisation of `write_loop`: append one `\n` byte when
the transformed command does not already end with one. -/
def mk_cmd (mode : WriterMode) (buf : List Nat) : List Nat :=
  let cmd := transform mode buf
  if ends_with cmd [NL] then cmd else cmd ++ [NL]

/-- The bytes of `"exit\n"`, the writer loop's termination sentinel. -/
def EXIT_CMD : List Nat := [101, 120, 105, 116, NL]

/-- `stdin.read_line` against a modelled stream of remaining lines: pops the
next line; at end-of-input it returns `Ok(0)` leaving the buffer empty, so
the modelled read yields the empty line and the stream stays exhausted. -/
def read_line : List (List Nat) → List Nat × List (List Nat)
  | [] => ([], [])
  | l :: ls => (l, ls)

/-- How a fuelled run of the writer loop ended: `finished` is the loop's
`break` (the `Ok(())` return), `fuel_out` means the loop was still running
after the given number of iterations. -/
inductive LoopOutcome
  | finished
  | fuel_out
deriving DecidableEq

/-- The loop of `write_loop` in `src/main.rs`, run for `fuel` iterations
against a modelled stdin stream.  Each iteration reads one line, builds the
byte command (`mk_cmd`), writes it (recorded in the returned trace, in
order), and breaks when the written command ends with `"exit\n"`.  Write
errors are not modelled: every write succeeds. -/
def write_loop (mode : WriterMode) : Nat → List (List Nat) → List (List Nat) × LoopOutcome
  | 0, _ => ([], LoopOutcome.fuel_out)
  | fuel + 1, inputs =>
    let r := read_line inputs
    let cmd := mk_cmd mode r.1
    if ends_with cmd EXIT_CMD then ([cmd], LoopOutcome.finished)
    else
      let rest := write_loop mode fuel r.2
      (cmd :: rest.1, rest.2)

-- Concrete operator input lines (bytes of the ASCII text named in each comment).

/-- Bytes of the operator line with text 41 42 0a and a trailing newline. -/
def hex_line_a : List Nat := [52, 49, SPACE, 52, 50, SPACE, 48, 97, NL]

/-- Bytes of the operator line with text zz 41 and a trailing newline. -/
def hex_line_b : List Nat := [122, 122, SPACE, 52, 49, NL]

/-- Bytes of the operator line with the single letter f and a trailing newline. -/
def hex_line_f : List Nat := [102, NL]

/-- Bytes of the operator line with text 0a 0a and a trailing newline. -/
def hex_line_nl_nl : List Nat := [48, 97, SPACE, 48, 97, NL]

/-- Bytes of the operator line exit with a trailing newline. -/
def exit_line : List Nat := [101, 120, 105, 116, NL]

/-- Bytes of the operator line ls with a trailing newline. -/
def ls_line : List Nat := [108, 115, NL]

/-- Bytes of the text ls with no trailing newline. -/
def ls_noterm : List Nat := [108, 115]

/-- The `errno` value of the vacated-terminal condition (`Errno::EIO`). -/
def eio_errno : Nat := 5

/-- Outcome of one `nix::unistd::read` on the master descriptor: `ok` with
the bytes read, or `err` with the errno. -/
inductive ReadOutcome
  | ok (bytes : List Nat)
  | err (errno : Nat)
deriving DecidableEq

/-- Observable output of the background reader of `spawn_reader`: a data
record (the printed text/hex rendering of the bytes read), the diagnostic
note printed on `Errno::EIO`, or the report of any other read error. -/
inductive ReaderEvent
  | record (bytes : List Nat)
  | eio_note
  | read_failure (errno : Nat)
deriving DecidableEq

/-- Whether a reader event reports a read failure (the could-not-read
message of `spawn_reader`); the data records and the EIO note do not. -/
def is_failure : ReaderEvent → Bool
  | ReaderEvent.read_failure _ => true
  | _ => false

/-- The loop of `spawn_reader` in `src/main.rs`, run against a modelled
sequence of read outcomes: each successful read emits one record and the
loop continues; the first failing read stops the loop (outcomes after it
are never examined), with `Errno::EIO` emitting only the diagnostic note
and any other errno emitting a failure report. -/
def reader_loop : List ReadOutcome → List ReaderEvent
  | [] => []
  | ReadOutcome.ok bs :: rest => ReaderEvent.record bs :: reader_loop rest
  | ReadOutcome.err e :: _ =>
    if e = eio_errno then [ReaderEvent.eio_note] else [ReaderEvent.read_failure e]

/-- The composition in `main`: `spawn_reader` runs in a background thread
while `write_loop` runs in the foreground; they share no in-process state,
so the bridge's observable behaviour is the pair of the two runs. -/
def main_bridge (reads : List ReadOutcome) (mode : WriterMode) (fuel : Nat)
    (inputs : List (List Nat)) :
    List ReaderEvent × (List (List Nat) × LoopOutcome) :=
  (reader_loop reads, write_loop mode fuel inputs)

-- Environment handling of `build_cmd` (`env_clear`, `env`, `envs`).

/-- The name of the injected `SHELL` environment variable. -/
def SHELL_VAR : String := "SHELL"

/-- First-match lookup in an explicit variable list. -/
def lookup_var : List (String × String) → String → Option String
  | [], _ => none
  | (k, v) :: rest, key => if k = key then some v else lookup_var rest key

/-- `Command::env(key, v)`: replace the first entry with that key, or append
a new entry. -/
def set_env (vars : List (String × String)) (key v : String) : List (String × String) :=
  match vars with
  | [] => [(key, v)]
  | (k, w) :: rest => if k = key then (key, v) :: rest else (k, w) :: set_env rest key v

/-- Value of the LAST pair with the given key in a caller-supplied list
(later `envs` entries override earlier ones). -/
def lookup_last : List (String × String) → String → Option String
  | [], _ => none
  | (k, v) :: rest, key =>
    match lookup_last rest key with
    | some w => some w
    | none => if k = key then some v else none

/-- The explicit environment state of a `std::process::Command`: whether
`env_clear` was called, plus the explicitly set variables. -/
structure CommandEnvState where
  env_clear : Bool
  vars : List (String × String)
deriving DecidableEq

/-- The environment set-up of `build_cmd` in `src/main.rs`:
`cmd.env_clear()`, then `cmd.env("SHELL", shell)`, then `cmd.envs(env)`
with the caller-supplied pairs applied in order. -/
def build_cmd_env (shell : String) (env : List (String × String)) : CommandEnvState :=
  { env_clear := true
    vars := env.foldl (fun vs kv => set_env vs kv.1 kv.2) (set_env [] SHELL_VAR shell) }

/-- The environment the spawned child observes, per `std::process::Command`
semantics: explicitly set variables win; otherwise the launcher's own
environment is consulted only when `env_clear` was not called. -/
def child_env (launcher_env : List (String × String)) (c : CommandEnvState)
    (key : String) : Option String :=
  match lookup_var c.vars key with
  | some v => some v
  | none => if c.env_clear then none else lookup_var launcher_env key

-- The `pre_exec` hook and spawn of `build_cmd`.

/-- The terminal-control calls the `pre_exec` closure of `build_cmd` can
make, in the child's execution context. -/
inductive PreExecCall
  | call_setsid
  | call_tiocsctty
deriving DecidableEq

/-- The `pre_exec` closure of `build_cmd`, parametrised by the outcomes of
the two libc calls (`some e` = the call returns -1 with errno `e`, `none` =
success): run `setsid()` first; only if it succeeds, run
`ioctl(0, TIOCSCTTY, 0)` on the child's stdin (which `build_cmd` made the
slave descriptor).  Returns the ordered trace of calls made and the
closure's result. -/
def pre_exec_hook (setsid_err : Option Nat) (ioctl_err : Option Nat) :
    List PreExecCall × Except Nat Unit :=
  match setsid_err with
  | some e => ([PreExecCall.call_setsid], Except.error e)
  | none =>
    match ioctl_err with
    | some e => ([PreExecCall.call_setsid, PreExecCall.call_tiocsctty], Except.error e)
    | none => ([PreExecCall.call_setsid, PreExecCall.call_tiocsctty], Except.ok ())

/-- Result of `cmd.spawn()` as far as the hook is concerned. -/
inductive SpawnOutcome
  | child_running
  | aborted (errno : Nat)
deriving DecidableEq

/-- Modelled `std::os::unix` spawn semantics for a command with a `pre_exec`
hook: the hook runs in the child strictly between `fork` and `exec`; if it
returns an error the child never reaches `exec`, and `spawn` surfaces that
error to the caller instead of a running child. -/
def spawn_with_pre_exec (setsid_err : Option Nat) (ioctl_err : Option Nat) : SpawnOutcome :=
  match (pre_exec_hook setsid_err ioctl_err).2 with
  | Except.ok _ => SpawnOutcome.child_running
  | Except.error e => SpawnOutcome.aborted e

-- `open_pty`.

/-- `open_pty` of `src/main.rs`, parametrised by the outcomes of the three
OS calls: `openpty(None, None)` (`openpty_res`, an error or the pair of
descriptor numbers) and `fcntl(fd, F_SETFD(FD_CLOEXEC))` on each descriptor
(`fcntl_err fd = some e` means the call fails with errno `e`; success sets
the descriptor's close-on-exec flag in the flag store).  Returns the final
flag store together with the pair, or the first error, propagated by `?`. -/
def open_pty (openpty_res : Except Nat (Nat × Nat)) (fcntl_err : Nat → Option Nat)
    (flags : Nat → Bool) : Except Nat ((Nat → Bool) × Nat × Nat) :=
  match openpty_res with
  | Except.error e => Except.error e
  | Except.ok (m, s) =>
    match fcntl_err m with
    | some e => Except.error e
    | none =>
      let flags1 := fun fd => if fd = m then true else flags fd
      match fcntl_err s with
      | some e => Except.error e
      | none => Except.ok (fun fd => if fd = s then true else flags1 fd, m, s)

-- `Args::from_command_line`.

/-- The shell option token. -/
def FLAG_SHELL : String := "--shell"

/-- The mode option token. -/
def FLAG_MOD : String := "--mod"

/-- The help token. -/
def FLAG_HELP : String := "--help"

/-- The mode value selecting `WriterMode::String` (`Raw`). -/
def MODE_STR : String := "str"

/-- The mode value selecting `WriterMode::Bytes` (`HexBytes`). -/
def MODE_BYTES : String := "bytes"

/-- The default shell path. -/
def DEFAULT_SHELL : String := "/bin/bash"

/-- The `while let Some(arg) = args.next()` loop of `Args::from_command_line`:
`--shell` consumes the next argument as the shell (breaking if there is
none), `--mod` consumes the next argument and sets the mode when it is
`str` or `bytes` (ignoring any other value, breaking if there is none),
`--help` prints the usage text and makes the whole parse return `None`
(modelled by `none`), and any other argument is ignored. -/
def parse_args_loop : List String → Option String → WriterMode →
    Option (Option String × WriterMode)
  | [], shell, mode => some (shell, mode)
  | [arg], shell, mode =>
    if arg = FLAG_SHELL then some (shell, mode)
    else if arg = FLAG_MOD then some (shell, mode)
    else if arg = FLAG_HELP then none
    else some (shell, mode)
  | arg :: next :: rest, shell, mode =>
    if arg = FLAG_SHELL then parse_args_loop rest (some next) mode
    else if arg = FLAG_MOD then
      if next = MODE_STR then parse_args_loop rest shell WriterMode.String
      else if next = MODE_BYTES then parse_args_loop rest shell WriterMode.Bytes
      else parse_args_loop rest shell mode
    else if arg = FLAG_HELP then none
    else parse_args_loop (next :: rest) shell mode

/-- The parsed command-line of `src/main.rs`. -/
structure Args where
  shell : String
  mode : WriterMode
deriving DecidableEq

/-- `Args::from_command_line` on the argument list (after `skip(1)`):
run the scanning loop from no shell and `WriterMode::String` (`Raw`),
then default the shell to `/bin/bash`; `none` means the help text was
printed and the program does nothing further. -/
def Args.from_command_line (argv : List String) : Option Args :=
  match parse_args_loop argv none WriterMode.String with
  | none => none
  | some (shell, mode) => some { shell := shell.getD DEFAULT_SHELL, mode := mode }

-- Spec-side definitions, used only to state claims against the code.

/-- Modelled from the spec's words for the hex mode (claim C2): parse each
token as a TWO-DIGIT base-16 byte value, discarding every token that is not
exactly two hexadecimal digits. -/
def parse_bytes_two_digit (buf : List Nat) : List Nat :=
  (split_spaces (strip_nl buf)).filterMap fun t =>
    match t with
    | [d1, d2] =>
      match hex_digit_val d1, hex_digit_val d2 with
      | some a, some b => some (a * 16 + b)
      | _, _ => none
    | _ => none

/-- Modelled from the spec's words for claim C1: the command ends with
exactly one line-terminator byte (one trailing 0x0a not preceded by
another). -/
def ends_with_exactly_one_nl (cmd : List Nat) : Bool :=
  ends_with cmd [NL] && !ends_with cmd [NL, NL]

/-- Modelled from the spec's words for claim C9: the same scanning loop, but
a malformed (neither `str` nor `bytes`) value of the mode option stops the
parsing of all further arguments. -/
def parse_args_loop_stop_on_malformed : List String → Option String → WriterMode →
    Option (Option String × WriterMode)
  | [], shell, mode => some (shell, mode)
  | [arg], shell, mode =>
    if arg = FLAG_SHELL then some (shell, mode)
    else if arg = FLAG_MOD then some (shell, mode)
    else if arg = FLAG_HELP then none
    else some (shell, mode)
  | arg :: next :: rest, shell, mode =>
    if arg = FLAG_SHELL then parse_args_loop_stop_on_malformed rest (some next) mode
    else if arg = FLAG_MOD then
      if next = MODE_STR then parse_args_loop_stop_on_malformed rest shell WriterMode.String
      else if next = MODE_BYTES then parse_args_loop_stop_on_malformed rest shell WriterMode.Bytes
      else some (shell, mode)
    else if arg = FLAG_HELP then none
    else parse_args_loop_stop_on_malformed (next :: rest) shell mode

/-- The claim-C9 reading of `Args::from_command_line`, built on the
stop-on-malformed loop. -/
def from_command_line_stop_on_malformed (argv : List String) : Option Args :=
  match parse_args_loop_stop_on_malformed argv none WriterMode.String with
  | none => none
  | some (shell, mode) => some { shell := shell.getD DEFAULT_SHELL, mode := mode }

-- Sanity checks on small concrete inputs.
example : parse_bytes hex_line_a = [65, 66, 10] := by decide
example : parse_bytes hex_line_b = [65] := by decide
example : mk_cmd WriterMode.Bytes hex_line_b = [65, 10] := by decide
example : mk_cmd WriterMode.Bytes hex_line_nl_nl = [10, 10] := by decide
example : parse_bytes hex_line_f = [15] := by decide
example : mk_cmd WriterMode.String exit_line = EXIT_CMD := by decide
example : write_loop WriterMode.String 3 [exit_line, ls_line]
    = ([EXIT_CMD], LoopOutcome.finished) := by decide
example : write_loop WriterMode.String 2 [] = ([[10], [10]], LoopOutcome.fuel_out) := by decide
example : Args.from_command_line [] = some { shell := DEFAULT_SHELL, mode := WriterMode.String } := by decide
example : Args.from_command_line [FLAG_MOD, MODE_BYTES] = some { shell := DEFAULT_SHELL, mode := WriterMode.Bytes } := by decide
example : Args.from_command_line [FLAG_HELP, FLAG_MOD] = none := by decide
example : Args.from_command_line [FLAG_SHELL] = some { shell := DEFAULT_SHELL, mode := WriterMode.String } := by decide
example : reader_loop [ReadOutcome.ok [104], ReadOutcome.err 5]
    = [ReaderEvent.record [104], ReaderEvent.eio_note] := by decide
example : reader_loop [ReadOutcome.ok [104], ReadOutcome.err 9, ReadOutcome.ok [1]]
    = [ReaderEvent.record [104], ReaderEvent.read_failure 9] := by decide
example : child_env [] (build_cmd_env DEFAULT_SHELL []) SHELL_VAR = some DEFAULT_SHELL := by decide
example : spawn_with_pre_exec none none = SpawnOutcome.child_running := by decide
example : spawn_with_pre_exec none (some 25) = SpawnOutcome.aborted 25 := by decide
example : ends_with_exactly_one_nl (mk_cmd WriterMode.Bytes hex_line_nl_nl) = false := by decide
example : parse_bytes_two_digit hex_line_f = [] := by decide

-- Helper lemmas.

/-- Appending a terminator byte yields a command ending with one. -/
lemma ends_with_append_nl (t : List Nat) : ends_with (t ++ [NL]) [NL] = true := by
  simp [ends_with, List.reverse_append, begins_with]

/-- Every command built by the writer loop ends with a terminator byte. -/
lemma mk_cmd_ends_nl (mode : WriterMode) (line : List Nat) :
    ends_with (mk_cmd mode line) [NL] = true := by
  by_cases h : ends_with (transform mode line) [NL] = true
  · simp [mk_cmd, h]
  · simp [mk_cmd, h, ends_with_append_nl]

/-- When the transformed command already ends with a terminator, nothing is
appended. -/
lemma mk_cmd_of_terminated (mode : WriterMode) (line : List Nat)
    (h : ends_with (transform mode line) [NL] = true) :
    mk_cmd mode line = transform mode line := by
  simp [mk_cmd, h]

/-- When the transformed command does not end with a terminator, exactly one
terminator byte is appended. -/
lemma mk_cmd_of_unterminated (mode : WriterMode) (line : List Nat)
    (h : ends_with (transform mode line) [NL] = false) :
    mk_cmd mode line = transform mode line ++ [NL] := by
  simp [mk_cmd, h]

/-- Every command the writer loop writes ends with a terminator byte. -/
lemma write_loop_trace_ends_nl (mode : WriterMode) :
    ∀ (fuel : Nat) (inputs : List (List Nat)) (c : List Nat),
      c ∈ (write_loop mode fuel inputs).1 → ends_with c [NL] = true := by
  intro fuel
  induction fuel with
  | zero => intro inputs c hc; simp [write_loop] at hc
  | succ n ih =>
    intro inputs c hc
    by_cases h : ends_with (mk_cmd mode (read_line inputs).1) EXIT_CMD = true
    · simp [write_loop, h] at hc
      subst hc
      exact mk_cmd_ends_nl mode (read_line inputs).1
    · simp [write_loop, h] at hc
      rcases hc with hc | hc
      · subst hc
        exact mk_cmd_ends_nl mode (read_line inputs).1
      · exact ih (read_line inputs).2 c hc

/-- A line whose command ends with the exit sentinel stops the loop right
after the write: nothing further is read. -/
lemma write_loop_exit_stops (mode : WriterMode) (fuel : Nat) (line : List Nat)
    (rest : List (List Nat)) (h : ends_with (mk_cmd mode line) EXIT_CMD = true) :
    write_loop mode (fuel + 1) (line :: rest) = ([mk_cmd mode line], LoopOutcome.finished) := by
  simp [write_loop, read_line, h]

/-- The loop finishes exactly when some written command ends with the exit
sentinel. -/
lemma write_loop_finished_iff (mode : WriterMode) :
    ∀ (fuel : Nat) (inputs : List (List Nat)),
      (write_loop mode fuel inputs).2 = LoopOutcome.finished ↔
      ∃ c ∈ (write_loop mode fuel inputs).1, ends_with c EXIT_CMD = true := by
  intro fuel
  induction fuel with
  | zero => intro inputs; simp [write_loop]
  | succ n ih =>
    intro inputs
    by_cases h : ends_with (mk_cmd mode (read_line inputs).1) EXIT_CMD = true
    · simp [write_loop, h]
    · simp [write_loop, h, ih]

/-- The empty line (what `read_line` yields at end-of-input) becomes the
lone-terminator command in both modes. -/
lemma mk_cmd_empty (mode : WriterMode) : mk_cmd mode [] = [NL] := by
  cases mode <;> decide

/-- At end-of-input the loop never stops: every iteration writes the
lone-terminator command and continues. -/
lemma write_loop_nil (mode : WriterMode) :
    ∀ fuel : Nat, write_loop mode fuel [] = (List.replicate fuel [NL], LoopOutcome.fuel_out) := by
  intro fuel
  induction fuel with
  | zero => simp [write_loop]
  | succ n ih =>
    have h : ends_with ([NL] : List Nat) EXIT_CMD = false := by decide
    simp [write_loop, read_line, h, ih, mk_cmd_empty, List.replicate_succ]

/-- The accumulation loop of `u8::from_str_radix` keeps the value in the
byte range. -/
lemma parse_hex_digits_le :
    ∀ (s : List Nat) (acc v : Nat), acc ≤ 255 → parse_hex_digits s acc = some v → v ≤ 255 := by
  intro s
  induction s with
  | nil =>
    intro acc v hacc h
    simp [parse_hex_digits] at h
    omega
  | cons b rest ih =>
    intro acc v hacc h
    cases hd : hex_digit_val b with
    | none => simp [parse_hex_digits, hd] at h
    | some d =>
      simp only [parse_hex_digits, hd] at h
      by_cases hle : acc * 16 + d ≤ 255
      · rw [if_pos hle] at h
        exact ih (acc * 16 + d) v hle h
      · rw [if_neg hle] at h
        simp at h

/-- Any token `u8::from_str_radix(_, 16)` accepts denotes a byte value. -/
lemma u8_from_str_radix_16_le (t : List Nat) (v : Nat)
    (h : u8_from_str_radix_16 t = some v) : v ≤ 255 := by
  cases t with
  | nil => simp [u8_from_str_radix_16] at h
  | cons b rest =>
    simp only [u8_from_str_radix_16] at h
    by_cases hb : b = PLUS
    · rw [if_pos hb] at h
      cases rest with
      | nil => simp at h
      | cons c rest2 => exact parse_hex_digits_le (c :: rest2) 0 v (by omega) h
    · rw [if_neg hb] at h
      exact parse_hex_digits_le (b :: rest) 0 v (by omega) h

/-- Every value `parse_bytes` emits is a byte value. -/
lemma parse_bytes_lt (buf : List Nat) (b : Nat) (h : b ∈ parse_bytes buf) : b < 256 := by
  rcases List.mem_filterMap.mp h with ⟨t, _, ht⟩
  have := u8_from_str_radix_16_le t b ht
  omega

/-- `Command::env` followed by a lookup: the set key reads back, every other
key is untouched. -/
lemma lookup_var_set_env :
    ∀ (vs : List (String × String)) (k v key : String),
      lookup_var (set_env vs k v) key = if k = key then some v else lookup_var vs key := by
  intro vs
  induction vs with
  | nil => intro k v key; simp [set_env, lookup_var]
  | cons p rest ih =>
    intro k v key
    obtain ⟨k1, w⟩ := p
    by_cases h1 : k1 = k
    · subst h1
      simp only [set_env, if_pos rfl, lookup_var]
      by_cases h2 : k1 = key
      · simp [h2]
      · simp [h2, lookup_var]
    · simp only [set_env, if_neg h1, lookup_var]
      by_cases h2 : k1 = key
      · subst h2
        have : ¬(k = k1) := fun hk => h1 hk.symm
        simp [this]
      · simp [h2, ih k v key]

/-- Reading back the variables accumulated by `Command::envs`: the last
supplied pair with the key wins; otherwise the base state is consulted. -/
lemma lookup_var_foldl_set :
    ∀ (env : List (String × String)) (base : List (String × String)) (key : String),
      lookup_var (env.foldl (fun vs kv => set_env vs kv.1 kv.2) base) key
        = match lookup_last env key with
          | some v => some v
          | none => lookup_var base key := by
  intro env
  induction env with
  | nil => intro base key; simp [lookup_last]
  | cons kv rest ih =>
    intro base key
    obtain ⟨k, v⟩ := kv
    simp only [List.foldl_cons, lookup_last]
    rw [ih (set_env base k v) key, lookup_var_set_env]
    cases h : lookup_last rest key with
    | some w => simp
    | none =>
      by_cases hk : k = key
      · simp [hk]
      · simp [hk]

/-- The environment the child of `build_cmd` observes: exactly the supplied
pairs (last occurrence winning) plus the injected `SHELL`, independent of
the launcher's environment (because of `env_clear`). -/
lemma child_env_build_cmd (p : List (String × String)) (shell : String)
    (env : List (String × String)) (key : String) :
    child_env p (build_cmd_env shell env) key
      = match lookup_last env key with
        | some v => some v
        | none => if SHELL_VAR = key then some shell else none := by
  simp only [child_env, build_cmd_env]
  rw [lookup_var_foldl_set env (set_env [] SHELL_VAR shell) key]
  cases h : lookup_last env key with
  | some w => simp
  | none =>
    rw [lookup_var_set_env]
    by_cases hk : SHELL_VAR = key
    · simp [hk]
    · simp [hk, lookup_var]

/-- The reader loop emits one record per successful read and stops at the
first error, discriminating the vacated-terminal errno from real failures;
outcomes after the first error are never examined. -/
lemma reader_loop_spec :
    ∀ (goods : List (List Nat)) (e : Nat) (rest : List ReadOutcome),
      reader_loop (goods.map ReadOutcome.ok ++ ReadOutcome.err e :: rest)
        = goods.map ReaderEvent.record
          ++ [if e = eio_errno then ReaderEvent.eio_note else ReaderEvent.read_failure e] := by
  intro goods
  induction goods with
  | nil => intro e rest; simp only [List.map_nil, List.nil_append, reader_loop]; split <;> rfl
  | cons g rest2 ih => intro e rest; simp [reader_loop, ih]

/-- Data records and the EIO note are not failure reports. -/
lemma no_failure_in_eio_run (goods : List (List Nat)) :
    (goods.map ReaderEvent.record ++ [ReaderEvent.eio_note]).all
      (fun ev => !is_failure ev) = true := by
  induction goods with
  | nil => decide
  | cons g rest ih => simp only [List.map_cons, List.cons_append, List.all_cons, is_failure, Bool.not_false, Bool.true_and]; exact ih

/-- On a successful allocation the returned flag store has close-on-exec set
on both descriptors of the pair. -/
lemma open_pty_ok_cloexec (res : Except Nat (Nat × Nat)) (ferr : Nat → Option Nat)
    (flags : Nat → Bool) (f : Nat → Bool) (m s : Nat)
    (h : open_pty res ferr flags = Except.ok (f, m, s)) : f m = true ∧ f s = true := by
  cases res with
  | error e => simp [open_pty] at h
  | ok p =>
    obtain ⟨m0, s0⟩ := p
    cases hm : ferr m0 with
    | some e => simp [open_pty, hm] at h
    | none =>
      cases hs : ferr s0 with
      | some e => simp [open_pty, hm, hs] at h
      | none =>
        simp only [open_pty, hm, hs] at h
        simp only [Except.ok.injEq, Prod.mk.injEq] at h
        obtain ⟨hf, hm2, hs2⟩ := h
        subst hm2
        subst hs2
        constructor
        · rw [← hf]
          by_cases hms : m0 = s0 <;> simp [hms]
        · rw [← hf]
          simp

-- Concrete data for witnesses and counterexamples.

/-- A mode value that is neither str nor bytes. -/
def BOGUS_MODE : String := "bogus"

/-- A non-default shell path appearing after the malformed mode value. -/
def SH_PATH : String := "/bin/sh"

/-- Argument list: the mode option with a malformed value, then the shell option. -/
def argv_malformed_mode : List String := [FLAG_MOD, BOGUS_MODE, FLAG_SHELL, SH_PATH]

/-- A caller-supplied environment key distinct from SHELL. -/
def PATH_KEY : String := "PATH"

/-- The value supplied for that key. -/
def PATH_VAL : String := "/usr/bin"

/-- A caller-supplied environment without a SHELL entry. -/
def env_plain : List (String × String) := [(PATH_KEY, PATH_VAL)]

/-- A shell path distinct from the default, supplied as a SHELL entry. -/
def ZSH_PATH : String := "/bin/zsh"

/-- A caller-supplied environment that itself contains a SHELL entry. -/
def env_with_shell : List (String × String) := [(SHELL_VAR, ZSH_PATH)]

/-- A launcher environment with its own SHELL, which must not leak through. -/
def launcher_env_a : List (String × String) := [(SHELL_VAR, SH_PATH), (PATH_KEY, PATH_VAL)]

-- Claim theorems.

/-- C1 (amended): every byte command the writer loop writes ends with a
line-terminator byte; when the transformed command does not already end
with one, exactly one terminator byte is appended, and nothing is appended
when one is already present.  (The original claim's stronger reading — the
written command ends with EXACTLY one 0x0a — fails in HexBytes mode, see
the counterexample.) -/
theorem c1_terminator_invariant :
    (∀ (mode : WriterMode) (line : List Nat), ends_with (mk_cmd mode line) [NL] = true)
    ∧ (∀ (mode : WriterMode) (line : List Nat),
        ends_with (transform mode line) [NL] = true → mk_cmd mode line = transform mode line)
    ∧ (∀ (mode : WriterMode) (line : List Nat),
        ends_with (transform mode line) [NL] = false →
        mk_cmd mode line = transform mode line ++ [NL])
    ∧ (∀ (mode : WriterMode) (fuel : Nat) (inputs : List (List Nat)) (c : List Nat),
        c ∈ (write_loop mode fuel inputs).1 → ends_with c [NL] = true) :=
  ⟨mk_cmd_ends_nl, mk_cmd_of_terminated, mk_cmd_of_unterminated,
    fun mode fuel inputs c hc => write_loop_trace_ends_nl mode fuel inputs c hc⟩

/-- Witness for C1: a raw line with no terminator gets exactly one appended. -/
theorem c1_terminator_witness :
    mk_cmd WriterMode.String ls_noterm = ls_noterm ++ [NL] :=
  c1_terminator_invariant.2.2.1 WriterMode.String ls_noterm (by decide)

/-- Counterexample to C1 as stated: in HexBytes mode the operator line with
text 0a 0a produces the written command 0x0a 0x0a, which does not end with
exactly one line-terminator byte. -/
theorem c1_counterexample :
    mk_cmd WriterMode.Bytes hex_line_nl_nl = [NL, NL]
    ∧ ends_with_exactly_one_nl (mk_cmd WriterMode.Bytes hex_line_nl_nl) = false := by
  decide

/-- C2 (amended): HexBytes mode strips one trailing terminator, splits on
single spaces and keeps exactly the tokens `u8::from_str_radix(_, 16)`
accepts — one or more hexadecimal digits, optionally preceded by a plus
sign, with value fitting in a byte — silently discarding the rest; the
input 41 42 0a yields the bytes 0x41 0x42 0x0a written with no terminator
appended, and the input zz 41 yields 0x41 followed by one appended
terminator.  (The original claim's restriction to exactly-two-digit tokens
fails, see the counterexample.) -/
theorem c2_hex_mode :
    mk_cmd WriterMode.Bytes hex_line_a = [65, 66, 10]
    ∧ mk_cmd WriterMode.Bytes hex_line_b = [65, 10]
    ∧ write_loop WriterMode.Bytes 1 [hex_line_a] = ([[65, 66, 10]], LoopOutcome.fuel_out)
    ∧ u8_from_str_radix_16 [102] = some 15
    ∧ (∀ (buf : List Nat) (b : Nat), b ∈ parse_bytes buf → b < 256) :=
  ⟨by decide, by decide, by decide, by decide, parse_bytes_lt⟩

/-- Witness for C2: the byte 0x0a is among the parsed bytes of the line
41 42 0a and is in the byte range. -/
theorem c2_hex_witness : 10 ∈ parse_bytes hex_line_a ∧ 10 < 256 :=
  ⟨by decide, c2_hex_mode.2.2.2.2 hex_line_a 10 (by decide)⟩

/-- Counterexample to C2 as stated: the one-digit token f is not a two-digit
base-16 byte value, yet `parse_bytes` keeps it as 0x0f instead of
discarding it. -/
theorem c2_counterexample :
    parse_bytes hex_line_f = [15]
    ∧ parse_bytes_two_digit hex_line_f = []
    ∧ parse_bytes hex_line_f ≠ parse_bytes_two_digit hex_line_f := by
  decide

/-- C3 (confirmed): a line whose byte command ends with the bytes of
exit-then-terminator stops the loop normally right after that write,
without reading another input line, and a written command ending with that
sentinel is the one and only non-error way the loop finishes; in Raw mode
the operator line exit yields exactly that command and run. -/
theorem c3_exit_termination :
    (∀ (mode : WriterMode) (fuel : Nat) (line : List Nat) (rest : List (List Nat)),
        ends_with (mk_cmd mode line) EXIT_CMD = true →
        write_loop mode (fuel + 1) (line :: rest) = ([mk_cmd mode line], LoopOutcome.finished))
    ∧ (∀ (mode : WriterMode) (fuel : Nat) (inputs : List (List Nat)),
        (write_loop mode fuel inputs).2 = LoopOutcome.finished ↔
        ∃ c ∈ (write_loop mode fuel inputs).1, ends_with c EXIT_CMD = true)
    ∧ mk_cmd WriterMode.String exit_line = EXIT_CMD
    ∧ write_loop WriterMode.String 3 [exit_line, ls_line] = ([EXIT_CMD], LoopOutcome.finished) :=
  ⟨fun mode fuel line rest h => write_loop_exit_stops mode fuel line rest h,
    fun mode fuel inputs => write_loop_finished_iff mode fuel inputs,
    by decide, by decide⟩

/-- Witness for C3: the raw exit line ends the loop after one write, with a
further queued line never read. -/
theorem c3_exit_witness :
    write_loop WriterMode.String (4 + 1) (exit_line :: [ls_line])
      = ([mk_cmd WriterMode.String exit_line], LoopOutcome.finished) :=
  c3_exit_termination.1 WriterMode.String 4 exit_line [ls_line] (by decide)

/-- C4 (code bug): at end-of-input `stdin.read_line` returns `Ok(0)` with an
empty buffer, which the `?` in `write_loop` does not treat as an error; the
loop therefore never ends — every iteration writes the lone-terminator
command and continues — contradicting the spec, under which end-of-input is
fatal and ends the loop. -/
theorem c4_eof_no_termination :
    ∀ (mode : WriterMode) (fuel : Nat),
      write_loop mode fuel [] = (List.replicate fuel [NL], LoopOutcome.fuel_out) :=
  fun mode fuel => write_loop_nil mode fuel

/-- C5 (confirmed): the background reader emits one record per successful
read and stops at its first failing read; the vacated-terminal errno stops
it with only the diagnostic note and no failure report, any other errno
stops it with a failure report; and the writer's run is unaffected by
whatever the reader observed. -/
theorem c5_reader_error_discrimination :
    (∀ (goods : List (List Nat)) (e : Nat) (rest : List ReadOutcome),
        reader_loop (goods.map ReadOutcome.ok ++ ReadOutcome.err e :: rest)
          = goods.map ReaderEvent.record
            ++ [if e = eio_errno then ReaderEvent.eio_note else ReaderEvent.read_failure e])
    ∧ (∀ (goods : List (List Nat)) (rest : List ReadOutcome),
        (reader_loop (goods.map ReadOutcome.ok ++ ReadOutcome.err eio_errno :: rest)).all
          (fun ev => !is_failure ev) = true)
    ∧ (∀ (goods : List (List Nat)) (e : Nat) (rest : List ReadOutcome),
        e ≠ eio_errno →
        (reader_loop (goods.map ReadOutcome.ok ++ ReadOutcome.err e :: rest)).getLast?
          = some (ReaderEvent.read_failure e))
    ∧ (∀ (r1 r2 : List ReadOutcome) (mode : WriterMode) (fuel : Nat)
        (inputs : List (List Nat)),
        (main_bridge r1 mode fuel inputs).2 = (main_bridge r2 mode fuel inputs).2) := by
  refine ⟨reader_loop_spec, ?_, ?_, fun r1 r2 mode fuel inputs => rfl⟩
  · intro goods rest
    rw [reader_loop_spec goods eio_errno rest, if_pos rfl]
    exact no_failure_in_eio_run goods
  · intro goods e rest he
    rw [reader_loop_spec goods e rest, if_neg he]
    simp

/-- Witness for C5: a read run ending with errno 9 (not the vacated-terminal
errno) ends in a failure report. -/
theorem c5_reader_witness :
    (9 : Nat) ≠ eio_errno
    ∧ (reader_loop [ReadOutcome.ok [104], ReadOutcome.err 9]).getLast?
        = some (ReaderEvent.read_failure 9) :=
  ⟨by decide, c5_reader_error_discrimination.2.2.1 [[104]] 9 [] (by decide)⟩

/-- C6 (confirmed): because `build_cmd` calls `env_clear` before populating
the command, the child's environment never depends on the launcher's own
environment, the injected SHELL variable holds the shell path whenever the
supplied pairs do not themselves contain a SHELL key, and every other key
reads exactly as supplied (nothing else is present). -/
theorem c6_env_isolation :
    (∀ (shell : String) (env p1 p2 : List (String × String)) (key : String),
        child_env p1 (build_cmd_env shell env) key = child_env p2 (build_cmd_env shell env) key)
    ∧ (∀ (shell : String) (env p : List (String × String)),
        lookup_last env SHELL_VAR = none →
        child_env p (build_cmd_env shell env) SHELL_VAR = some shell)
    ∧ (∀ (shell : String) (env p : List (String × String)) (key : String),
        key ≠ SHELL_VAR →
        child_env p (build_cmd_env shell env) key = lookup_last env key) := by
  refine ⟨?_, ?_, ?_⟩
  · intro shell env p1 p2 key
    rw [child_env_build_cmd, child_env_build_cmd]
  · intro shell env p h
    rw [child_env_build_cmd, h]
    simp
  · intro shell env p key hk
    rw [child_env_build_cmd]
    cases h : lookup_last env key with
    | some v => simp
    | none =>
      have : ¬(SHELL_VAR = key) := fun he => hk he.symm
      simp [this]

/-- Witness for C6: with a supplied environment holding only a PATH entry,
the child sees SHELL mapped to the shell path, even under a launcher
environment carrying its own SHELL. -/
theorem c6_env_witness :
    lookup_last env_plain SHELL_VAR = none
    ∧ child_env launcher_env_a (build_cmd_env DEFAULT_SHELL env_plain) SHELL_VAR
        = some DEFAULT_SHELL :=
  ⟨by decide, c6_env_isolation.2.1 DEFAULT_SHELL env_plain launcher_env_a (by decide)⟩

/-- C7 (confirmed): the `pre_exec` hook of `build_cmd` runs `setsid` first
and the controlling-terminal ioctl only after `setsid` succeeded; each
failing call makes the hook return that error without running the later
call, the spawn then aborts surfacing that error instead of leaving a
child running, and the child runs exactly when both calls succeed. -/
theorem c7_pre_exec_session :
    (∀ (s i : Option Nat),
        (pre_exec_hook s i).1 = [PreExecCall.call_setsid]
        ∨ (pre_exec_hook s i).1 = [PreExecCall.call_setsid, PreExecCall.call_tiocsctty])
    ∧ (∀ (i : Option Nat) (e : Nat),
        pre_exec_hook (some e) i = ([PreExecCall.call_setsid], Except.error e))
    ∧ (∀ e : Nat,
        pre_exec_hook none (some e)
          = ([PreExecCall.call_setsid, PreExecCall.call_tiocsctty], Except.error e))
    ∧ pre_exec_hook none none
        = ([PreExecCall.call_setsid, PreExecCall.call_tiocsctty], Except.ok ())
    ∧ (∀ (s i : Option Nat) (e : Nat),
        (pre_exec_hook s i).2 = Except.error e → spawn_with_pre_exec s i = SpawnOutcome.aborted e)
    ∧ (∀ s i : Option Nat,
        spawn_with_pre_exec s i = SpawnOutcome.child_running ↔ s = none ∧ i = none) := by
  refine ⟨?_, fun i e => rfl, fun e => rfl, rfl, ?_, ?_⟩
  · intro s i
    cases s with
    | some e => left; rfl
    | none => cases i with
      | some e => right; rfl
      | none => right; rfl
  · intro s i e h
    cases s with
    | some e2 =>
      simp only [pre_exec_hook] at h
      simp only [Except.error.injEq] at h
      subst h
      rfl
    | none =>
      cases i with
      | some e2 =>
        simp only [pre_exec_hook] at h
        simp only [Except.error.injEq] at h
        subst h
        rfl
      | none => simp [pre_exec_hook] at h
  · intro s i
    cases s with
    | some e => simp [spawn_with_pre_exec, pre_exec_hook]
    | none => cases i with
      | some e => simp [spawn_with_pre_exec, pre_exec_hook]
      | none => simp [spawn_with_pre_exec, pre_exec_hook]

/-- Witness for C7: a failing `setsid` (errno 13) aborts the spawn with that
error surfaced. -/
theorem c7_pre_exec_witness :
    (pre_exec_hook (some 13) none).2 = Except.error 13
    ∧ spawn_with_pre_exec (some 13) none = SpawnOutcome.aborted 13 :=
  ⟨rfl, c7_pre_exec_session.2.2.2.2.1 (some 13) none 13 rfl⟩

/-- C8 (confirmed): every successful `open_pty` returns with close-on-exec
set on both the master and the slave descriptor, and a failure of the
`openpty` call or of either `fcntl` call is returned as the underlying OS
error code instead of a pair. -/
theorem c8_cloexec_invariant :
    (∀ (res : Except Nat (Nat × Nat)) (ferr : Nat → Option Nat) (flags f : Nat → Bool)
        (m s : Nat),
        open_pty res ferr flags = Except.ok (f, m, s) → f m = true ∧ f s = true)
    ∧ (∀ (ferr : Nat → Option Nat) (flags : Nat → Bool) (e : Nat),
        open_pty (Except.error e) ferr flags = Except.error e)
    ∧ (∀ (m s : Nat) (ferr : Nat → Option Nat) (flags : Nat → Bool) (e : Nat),
        ferr m = some e → open_pty (Except.ok (m, s)) ferr flags = Except.error e)
    ∧ (∀ (m s : Nat) (ferr : Nat → Option Nat) (flags : Nat → Bool) (e : Nat),
        ferr m = none → ferr s = some e →
        open_pty (Except.ok (m, s)) ferr flags = Except.error e) := by
  refine ⟨?_, fun ferr flags e => rfl, ?_, ?_⟩
  · intro res ferr flags f m s h
    exact open_pty_ok_cloexec res ferr flags f m s h
  · intro m s ferr flags e hm
    simp [open_pty, hm]
  · intro m s ferr flags e hm hs
    simp [open_pty, hm, hs]

/-- Witness for C8: an `fcntl` failure with errno 24 on the master makes
`open_pty` return that error. -/
theorem c8_cloexec_witness :
    open_pty (Except.ok (3, 4)) (fun _ => some 24) (fun _ => false) = Except.error 24 :=
  c8_cloexec_invariant.2.2.1 3 4 (fun _ => some 24) (fun _ => false) 24 rfl

/-- C9 (amended): the shell defaults to the standard shell and the mode to
Raw; the help token, when reached by the scan, suppresses all further
action; a MISSING trailing argument to an option stops parsing of further
arguments rather than raising an error; but a malformed (present yet
unrecognised) value of the mode option is silently ignored and parsing
CONTINUES with the remaining arguments.  (The original claim's "malformed
trailing argument stops parsing" fails, see the counterexample.) -/
theorem c9_cli_parsing :
    Args.from_command_line [] = some { shell := DEFAULT_SHELL, mode := WriterMode.String }
    ∧ (∀ (rest : List String) (shell : Option String) (mode : WriterMode),
        parse_args_loop (FLAG_HELP :: rest) shell mode = none)
    ∧ (∀ rest : List String, Args.from_command_line (FLAG_HELP :: rest) = none)
    ∧ (∀ (shell : Option String) (mode : WriterMode),
        parse_args_loop [FLAG_SHELL] shell mode = some (shell, mode))
    ∧ (∀ (shell : Option String) (mode : WriterMode),
        parse_args_loop [FLAG_MOD] shell mode = some (shell, mode))
    ∧ (∀ (v : String) (rest : List String) (shell : Option String) (mode : WriterMode),
        v ≠ MODE_STR → v ≠ MODE_BYTES →
        parse_args_loop (FLAG_MOD :: v :: rest) shell mode = parse_args_loop rest shell mode) := by
  refine ⟨by decide, ?_, ?_, fun shell mode => rfl, fun shell mode => rfl, ?_⟩
  · intro rest shell mode
    cases rest with
    | nil => rfl
    | cons r rs => rfl
  · intro rest
    show Args.from_command_line (FLAG_HELP :: rest) = none
    unfold Args.from_command_line
    cases rest with
    | nil => rfl
    | cons r rs => rfl
  · intro v rest shell mode h1 h2
    simp [parse_args_loop, h1, h2, FLAG_MOD, FLAG_SHELL]

/-- Witness for C9: after the malformed mode value, scanning continues with
the remaining arguments. -/
theorem c9_cli_witness :
    parse_args_loop (FLAG_MOD :: BOGUS_MODE :: [FLAG_SHELL, SH_PATH]) none WriterMode.String
      = parse_args_loop [FLAG_SHELL, SH_PATH] none WriterMode.String :=
  c9_cli_parsing.2.2.2.2.2 BOGUS_MODE [FLAG_SHELL, SH_PATH] none WriterMode.String
    (by decide) (by decide)

/-- Counterexample to C9 as stated: on the argument list mode-option,
malformed value, shell-option, shell-path the parser does NOT stop at the
malformed value — the later shell option still takes effect — unlike the
stop-on-malformed reading of the claim. -/
theorem c9_counterexample :
    Args.from_command_line argv_malformed_mode
      = some { shell := SH_PATH, mode := WriterMode.String }
    ∧ from_command_line_stop_on_malformed argv_malformed_mode
        = some { shell := DEFAULT_SHELL, mode := WriterMode.String }
    ∧ Args.from_command_line argv_malformed_mode
        ≠ from_command_line_stop_on_malformed argv_malformed_mode := by
  decide

/-- C10 (confirmed): `build_cmd` applies the caller-supplied pairs after the
injected SHELL variable, so a supplied SHELL entry overrides the shell
path, and the injected SHELL equals the shell path exactly when no SHELL
key is supplied. -/
theorem c10_shell_override :
    (∀ (shell : String) (env p : List (String × String)) (v : String),
        lookup_last env SHELL_VAR = some v →
        child_env p (build_cmd_env shell env) SHELL_VAR = some v)
    ∧ (∀ (shell : String) (env p : List (String × String)),
        lookup_last env SHELL_VAR = none →
        child_env p (build_cmd_env shell env) SHELL_VAR = some shell)
    ∧ child_env [] (build_cmd_env DEFAULT_SHELL env_with_shell) SHELL_VAR = some ZSH_PATH := by
  refine ⟨?_, ?_, by decide⟩
  · intro shell env p v h
    rw [child_env_build_cmd, h]
  · intro shell env p h
    rw [child_env_build_cmd, h]
    simp

/-- Witness for C10: a supplied SHELL entry wins over the injected shell
path. -/
theorem c10_shell_override_witness :
    child_env launcher_env_a (build_cmd_env DEFAULT_SHELL env_with_shell) SHELL_VAR
        = some ZSH_PATH
    ∧ ZSH_PATH ≠ DEFAULT_SHELL :=
  ⟨c10_shell_override.1 DEFAULT_SHELL env_with_shell launcher_env_a ZSH_PATH (by decide),
    by decide⟩
